import Mathlib

/-!
Shallow embedding of the session persistence and concurrency-control layer of
the scrape-checker repository: the Postgres-backed session repository
(src/lib/db.ts generations), the SQL soft-delete layer
(scripts/add-soft-delete.sql), the HTTP handlers for the sessions API, and
the client store save logic (src/store/useAppStore.ts).

The sessions table is modelled as a list of rows.  The session_id column is
UNIQUE by schema, so SQL statements with a WHERE clause on session_id touch
at most one row; conditional UPDATE statements are modelled by mapping the
row transformer over the rows matching the WHERE predicate, and the first
row of RETURNING is the first match.  Timestamps are naturals (seconds);
NOW() is passed in explicitly as an argument.  The schema trigger
update_sessions_updated_at refreshes updated_at on every row touched by an
UPDATE, so every modelled UPDATE also stamps updated_at.
-/

namespace ScrapeChecker

/-- Reviewer-assigned status of a device record (src/types/device.ts). -/
inductive DeviceStatus
  | pending
  | approved
  | custom_selected
  | skipped
  | rejected
deriving DecidableEq

/-- A device record.  The persistence layer only inspects the status field
(for the completed-device count) and the length of the device array; the
remaining source fields (names, urls, notes, categories) are inert for every
operation modelled here and are omitted. -/
structure Device where
  status : DeviceStatus
deriving DecidableEq

/-- The completed statuses, as tested by the filter in createSession and
updateSession: approved, custom_selected or rejected. -/
def isCompleted (d : Device) : Bool :=
  d.status == .approved || d.status == .custom_selected || d.status == .rejected

/-- Denormalized completed-device count computed by the writer before every
save: devices.filter(completed).length. -/
def completedDeviceCount (devices : List Device) : Nat :=
  (devices.filter isCompleted).length

/-- The client-side session document sent to the repository (the parts the
persistence layer reads).  current_batch and completed_batches are optional
in the source and defaulted by the JavaScript or-operator at each use site. -/
structure CheckingSession where
  session_id : String
  session_name : String
  filename : String
  total_rows : Nat
  progress_percentage : Rat
  current_batch : Option Nat
  total_batches : Nat
  completed_batches : Option (List Nat)
  devices : List Device
deriving DecidableEq

/-- One row of the sessions table (interface SessionRow in src/lib/db.ts
newest generation, plus the deleted_at column from add-soft-delete.sql).
The legacy devices JSONB column is an Option, NULL for new blob-backed
rows. -/
structure SessionRow where
  id : String
  session_id : String
  session_name : String
  filename : String
  user_id : Option String
  total_rows : Nat
  progress_percentage : Rat
  current_batch : Nat
  total_batches : Nat
  completed_batches : List Nat
  created_at : Nat
  updated_at : Nat
  version : Nat
  devices : Option (List Device)
  blob_url : Option String
  locked_by : Option String
  locked_at : Option Nat
  device_count : Nat
  completed_device_count : Nat
  deleted_at : Option Nat
deriving DecidableEq

/-- The sessions table. -/
abbrev Table := List SessionRow

/-- Errors raised by the repository layer: the uniqueness violation on
create, the generic not-found Error, OptimisticLockError with both version
numbers, and SessionLockedError with the holder and lock timestamp. -/
inductive DbError
  | duplicateSession
  | notFound
  | optimisticLock (currentVersion : Nat) (attemptedVersion : Nat)
  | sessionLocked (lockedBy : String) (lockedAt : Nat)
deriving DecidableEq

/-- JavaScript or-default used as session.current_batch or 1 and
existing version or 1: undefined and 0 are falsy and give the default. -/
def jsOrOne : Option Nat → Nat
  | none => 1
  | some 0 => 1
  | some n => n

/-- WHERE session_id = sid predicate. -/
def psid (sid : String) (r : SessionRow) : Bool :=
  r.session_id == sid

/-- The session_id column is UNIQUE: no two rows share a session_id. -/
def uniqueSessionIds (db : Table) : Prop :=
  (db.map (fun r => r.session_id)).Nodup

instance (db : Table) : Decidable (uniqueSessionIds db) := by
  unfold uniqueSessionIds
  infer_instance

/-- The fresh metadata row INSERTed by the newest createSession: version 1,
computed device counts, the blob url, NULL lock fields and NULL deleted_at
(column defaults), devices JSONB left NULL. -/
def newRow (s : CheckingSession) (blobUrl : String) (userId : Option String)
    (freshId : String) (now : Nat) : SessionRow :=
  { id := freshId
    session_id := s.session_id
    session_name := s.session_name
    filename := s.filename
    user_id := userId
    total_rows := s.total_rows
    progress_percentage := s.progress_percentage
    current_batch := jsOrOne s.current_batch
    total_batches := s.total_batches
    completed_batches := s.completed_batches.getD []
    created_at := now
    updated_at := now
    version := 1
    devices := none
    blob_url := some blobUrl
    locked_by := none
    locked_at := none
    device_count := s.devices.length
    completed_device_count := completedDeviceCount s.devices
    deleted_at := none }

/-- createSession (newest db.ts generation): INSERT of the fresh row.  A
uniqueness violation on session_id fails the insert. -/
def createSession (db : Table) (s : CheckingSession) (blobUrl : String)
    (userId : Option String) (freshId : String) (now : Nat) :
    Except DbError (SessionRow × Table) :=
  if db.any (psid s.session_id) then
    .error .duplicateSession
  else
    .ok (newRow s blobUrl userId freshId now, db ++ [newRow s blobUrl userId freshId now])

/-- The session object returned by rowToSession: the row fields plus the
stored version (the source field is spelled _version) and the blob url kept
for the API layer. -/
structure LoadedSession where
  id : String
  session_id : String
  session_name : String
  filename : String
  total_rows : Nat
  progress_percentage : Rat
  current_batch : Nat
  total_batches : Nat
  completed_batches : List Nat
  created_at : Nat
  last_updated : Nat
  devices : List Device
  _version : Nat
  blob_url : Option String
deriving DecidableEq

/-- rowToSession: devices come from the legacy JSONB column only when no
blob url is set, otherwise the empty array placeholder (the API layer
fetches the real array from the blob store). -/
def rowToSession (row : SessionRow) : LoadedSession :=
  { id := row.id
    session_id := row.session_id
    session_name := row.session_name
    filename := row.filename
    total_rows := row.total_rows
    progress_percentage := row.progress_percentage
    current_batch := row.current_batch
    total_batches := row.total_batches
    completed_batches := row.completed_batches
    created_at := row.created_at
    last_updated := row.updated_at
    devices :=
      match row.devices, row.blob_url with
      | some ds, none => ds
      | _, _ => []
    _version := row.version
    blob_url := row.blob_url }

/-- getSession: SELECT * FROM sessions WHERE session_id = sid LIMIT 1.
There is no filter on deleted_at. -/
def getSession (db : Table) (sid : String) : Option LoadedSession :=
  (db.find? (psid sid)).map rowToSession

/-- The advisory lock TTL: INTERVAL 5 minutes, in seconds. -/
def lockTTL : Nat := 5 * 60

/-- The WHERE clause of the lock check query: the row for sid whose
locked_by is non-NULL, differs from the requesting user, and whose
locked_at is within the last 5 minutes (locked_at greater than NOW()
minus the TTL). -/
def lockCheckPred (sid userId : String) (now : Nat) (r : SessionRow) : Bool :=
  psid sid r && r.locked_by.isSome && r.locked_by != some userId &&
    (match r.locked_at with
     | some t => now < t + lockTTL
     | none => false)

/-- lockSession: the check SELECT looks for a fresh foreign lock and throws
SessionLockedError carrying its holder and timestamp; otherwise the UPDATE
stamps locked_by and locked_at on the row for sid (also when it merely
refreshes an own lock).  The non-null assertions on the error payload are
modelled with getD. -/
def lockSession (db : Table) (sid userId : String) (now : Nat) :
    Except DbError (Bool × Table) :=
  match db.find? (lockCheckPred sid userId now) with
  | some lock => .error (.sessionLocked (lock.locked_by.getD "") (lock.locked_at.getD 0))
  | none =>
      .ok (true, db.map fun r =>
        if psid sid r then
          { r with locked_by := some userId, locked_at := some now, updated_at := now }
        else r)

/-- unlockSession: clears the lock fields only on the row for sid that is
currently locked by userId. -/
def unlockSession (db : Table) (sid userId : String) (now : Nat) : Table :=
  db.map fun r =>
    if psid sid r && r.locked_by == some userId then
      { r with locked_by := none, locked_at := none, updated_at := now }
    else r

/-- refreshSessionLock: stamps locked_at on the row for sid only if locked
by userId. -/
def refreshSessionLock (db : Table) (sid userId : String) (now : Nat) : Table :=
  db.map fun r =>
    if psid sid r && r.locked_by == some userId then
      { r with locked_at := some now, updated_at := now }
    else r

/-- The WHERE clause of the optimistic-locking UPDATE: session_id matches
and version equals the expected version. -/
def pver (sid : String) (ev : Nat) (r : SessionRow) : Bool :=
  psid sid r && r.version == ev

/-- The shared shape of the conditional update in both generations of
updateSession: one atomic UPDATE guarded by session_id and version; if it
affects zero rows, a follow-up SELECT distinguishes a missing session
(generic not-found Error) from a version mismatch (OptimisticLockError with
the actual current version and the attempted version). -/
def condUpdate (db : Table) (sid : String) (ev : Nat)
    (g : SessionRow → SessionRow) : Except DbError (SessionRow × Table) :=
  match db.find? (pver sid ev) with
  | some r => .ok (g r, db.map fun x => if pver sid ev x then g x else x)
  | none =>
      match db.find? (psid sid) with
      | none => .error .notFound
      | some existing => .error (.optimisticLock existing.version ev)

/-- The SET list of the newest updateSession: name, progress, batch fields,
the new blob url, the recomputed counts, and version = version + 1; the
schema trigger refreshes updated_at. -/
def updateRow (s : CheckingSession) (blobUrl : String) (now : Nat)
    (r : SessionRow) : SessionRow :=
  { r with
    session_name := s.session_name
    progress_percentage := s.progress_percentage
    current_batch := jsOrOne s.current_batch
    completed_batches := s.completed_batches.getD []
    blob_url := some blobUrl
    device_count := s.devices.length
    completed_device_count := completedDeviceCount s.devices
    version := r.version + 1
    updated_at := now }

/-- updateSession (newest db.ts generation, devices in the blob store). -/
def updateSession (db : Table) (s : CheckingSession) (blobUrl : String)
    (expectedVersion : Nat) (now : Nat) : Except DbError (SessionRow × Table) :=
  condUpdate db s.session_id expectedVersion (updateRow s blobUrl now)

/-- deleteSession (soft delete): sets deleted_at = NOW() on the row for sid
only when deleted_at is currently NULL. -/
def deleteSession (db : Table) (sid : String) (now : Nat) : Table :=
  db.map fun r =>
    if psid sid r && r.deleted_at == none then
      { r with deleted_at := some now, updated_at := now }
    else r

/-- restoreSession: clears deleted_at on the row for sid only when it is
currently set. -/
def restoreSession (db : Table) (sid : String) (now : Nat) : Table :=
  db.map fun r =>
    if psid sid r && r.deleted_at != none then
      { r with deleted_at := none, updated_at := now }
    else r

/-- permanentlyDeleteSession: hard DELETE of the row for sid. -/
def permanentlyDeleteSession (db : Table) (sid : String) : Table :=
  db.filter fun r => !(psid sid r)

/-- The soft-delete retention window: INTERVAL 14 days, in seconds. -/
def retentionSeconds : Nat := 14 * 24 * 60 * 60

/-- The WHERE clause of the cleanup function: deleted_at is non-NULL and
older than NOW() minus the retention window. -/
def expiredPred (now : Nat) (r : SessionRow) : Bool :=
  match r.deleted_at with
  | some t => t + retentionSeconds < now
  | none => false

/-- cleanup_old_deleted_sessions (add-soft-delete.sql): hard-deletes the
rows past retention and returns ROW_COUNT. -/
def cleanup_old_deleted_sessions (db : Table) (now : Nat) : Nat × Table :=
  ((db.filter (expiredPred now)).length, db.filter fun r => !(expiredPred now r))

/-- cleanupOldDeletedSessions (db.ts): SELECT * FROM the SQL function and
return its deleted_count. -/
def cleanupOldDeletedSessions (db : Table) (now : Nat) : Nat × Table :=
  cleanup_old_deleted_sessions db now

/-- The session_summaries view after add-soft-delete.sql: the sessions rows
with deleted_at IS NULL (the listed columns are a projection of the row,
modelled by returning the whole row). -/
def session_summaries (db : Table) : Table :=
  db.filter fun r => r.deleted_at == none

/-- Insertion into a list kept in descending updated_at order, for ORDER BY
updated_at DESC. -/
def insertByUpdatedDesc (r : SessionRow) : List SessionRow → List SessionRow
  | [] => [r]
  | x :: xs =>
      if x.updated_at ≤ r.updated_at then r :: x :: xs
      else x :: insertByUpdatedDesc r xs

/-- ORDER BY updated_at DESC as an insertion sort. -/
def orderByUpdatedDesc (db : Table) : Table :=
  db.foldr insertByUpdatedDesc []

/-- listSessions: SELECT from session_summaries with an optional user_id
filter, ORDER BY updated_at DESC, LIMIT and OFFSET. -/
def listSessions (db : Table) (userId : Option String) (limit offset : Nat) :
    Table :=
  let base := session_summaries db
  let filtered :=
    match userId with
    | some u => base.filter fun r => r.user_id == some u
    | none => base
  ((orderByUpdatedDesc filtered).drop offset).take limit

namespace Legacy

/-- The SET list of the earlier updateSession generation (src/lib/db.ts as
imported by the present sessions route): identical to the newest one except
that the device array is written inline to the devices JSONB column and
there is no blob_url. -/
def updateRow (s : CheckingSession) (now : Nat) (r : SessionRow) : SessionRow :=
  { r with
    session_name := s.session_name
    progress_percentage := s.progress_percentage
    current_batch := jsOrOne s.current_batch
    completed_batches := s.completed_batches.getD []
    devices := some s.devices
    device_count := s.devices.length
    completed_device_count := completedDeviceCount s.devices
    version := r.version + 1
    updated_at := now }

/-- updateSession (earlier generation, devices inline). -/
def updateSession (db : Table) (s : CheckingSession) (expectedVersion : Nat)
    (now : Nat) : Except DbError (SessionRow × Table) :=
  condUpdate db s.session_id expectedVersion (updateRow s now)

/-- The fresh row INSERTed by the earlier createSession generation: as the
newest one but with devices stored inline and no blob_url column. -/
def newRow (s : CheckingSession) (userId : Option String) (freshId : String)
    (now : Nat) : SessionRow :=
  { id := freshId
    session_id := s.session_id
    session_name := s.session_name
    filename := s.filename
    user_id := userId
    total_rows := s.total_rows
    progress_percentage := s.progress_percentage
    current_batch := jsOrOne s.current_batch
    total_batches := s.total_batches
    completed_batches := s.completed_batches.getD []
    created_at := now
    updated_at := now
    version := 1
    devices := some s.devices
    blob_url := none
    locked_by := none
    locked_at := none
    device_count := s.devices.length
    completed_device_count := completedDeviceCount s.devices
    deleted_at := none }

/-- createSession (earlier generation). -/
def createSession (db : Table) (s : CheckingSession) (userId : Option String)
    (freshId : String) (now : Nat) : Except DbError (SessionRow × Table) :=
  if db.any (psid s.session_id) then
    .error .duplicateSession
  else
    .ok (newRow s userId freshId now, db ++ [newRow s userId freshId now])

end Legacy

/-- Actions recorded in the session_activity_log table. -/
inductive LogAction
  | created
  | updated
  | deleted
  | conflict
deriving DecidableEq

/-- One append-only activity log row. -/
structure LogEntry where
  session_id : String
  user_id : Option String
  action : LogAction
  version : Option Nat
deriving DecidableEq

/-- logSessionActivity: INSERT into session_activity_log.  The insert can
fail (for instance on the foreign key when the session row is gone); the
environment flag logFails selects that outcome. -/
def logSessionActivity (log : List LogEntry) (sid : String) (action : LogAction)
    (userId : Option String) (version : Option Nat) (logFails : Bool) :
    Except Unit (List LogEntry) :=
  if logFails then .error ()
  else .ok (log ++ [{ session_id := sid, user_id := userId, action := action,
                      version := version }])

/-- Responses of the GET handler for one session. -/
inductive ApiResponse
  | badRequest
  | notFound
  | locked (lockedBy : String) (lockedAt : Nat)
  | ok (session : LoadedSession)
  | serverError
deriving DecidableEq

/-- The lock-acquisition step of the GET handler: only attempted when an
authenticated identity is present; a SessionLockedError becomes the 423
response, any success keeps the updated table. -/
def getLockStep (db : Table) (sid : String) (userId : Option String)
    (now : Nat) : Except DbError Table :=
  match userId with
  | none => .ok db
  | some uid => (lockSession db sid uid now).map (fun p => p.2)

/-- GET /api/sessions/[sessionId] (newest generation): 400 on a missing id,
404 when no row exists, 423 with the holder identity and lock timestamp
when the lock attempt fails, otherwise 200 with the session; when a blob
url is present the device array is fetched from it, and a fetch failure
falls back to an empty device array while the response stays a success.
The blob_url field is stripped from the response. -/
def GET_session (db : Table) (sid : String) (userId : Option String)
    (blobFetch : String → Option (List Device)) (now : Nat) :
    ApiResponse × Table :=
  if sid == "" then (.badRequest, db)
  else
    match getSession db sid with
    | none => (.notFound, db)
    | some sessionData =>
      match getLockStep db sid userId now with
      | .error (.sessionLocked b t) => (.locked b t, db)
      | .error _ => (.serverError, db)
      | .ok db2 =>
        let withDevices :=
          match sessionData.blob_url with
          | some url =>
            match blobFetch url with
            | some devices => { sessionData with devices := devices }
            | none => { sessionData with devices := [] }
          | none => sessionData
        (.ok { withDevices with blob_url := none }, db2)

/-- Responses of the POST save handler. -/
inductive PostResponse
  | ok (sessionId : String) (version : Nat) (lastSaved : Nat)
  | conflict (currentVersion : Nat) (attemptedVersion : Nat)
  | serverError
deriving DecidableEq

/-- POST /api/sessions: looks the session up, updates it with the stored
version as the expected version (or creates it), then appends the activity
log entry and answers with the saved version.  An OptimisticLockError is
logged as a conflict and becomes the 409 response.  None of the
logSessionActivity calls is guarded, so a logging failure is caught by the
outer handler and becomes a 500 even though the repository write has
already happened. -/
def POST_sessions (db : Table) (log : List LogEntry) (s : CheckingSession)
    (userId : Option String) (freshId : String) (now : Nat) (logFails : Bool) :
    PostResponse × Table × List LogEntry :=
  match getSession db s.session_id with
  | some existing =>
    let currentVersion := jsOrOne (some existing._version)
    match Legacy.updateSession db s currentVersion now with
    | .ok (saved, db2) =>
        (match logSessionActivity log s.session_id .updated userId
              (some saved.version) logFails with
         | .ok log2 => (.ok saved.session_id saved.version saved.updated_at, db2, log2)
         | .error _ => (.serverError, db2, log))
    | .error (.optimisticLock cv av) =>
        (match logSessionActivity log s.session_id .conflict userId
              (some currentVersion) logFails with
         | .ok log2 => (.conflict cv av, db, log2)
         | .error _ => (.serverError, db, log))
    | .error _ => (.serverError, db, log)
  | none =>
    match Legacy.createSession db s userId freshId now with
    | .ok (saved, db2) =>
        (match logSessionActivity log s.session_id .created userId
              (some saved.version) logFails with
         | .ok log2 => (.ok saved.session_id saved.version saved.updated_at, db2, log2)
         | .error _ => (.serverError, db2, log))
    | .error _ => (.serverError, db, log)

/-- Responses of the DELETE and PATCH handlers. -/
inductive SimpleResponse
  | ok
  | badRequest
  | serverError
deriving DecidableEq

/-- DELETE /api/sessions/[sessionId] (newest generation): logs the deletion
first inside its own try block, so a logging failure is swallowed with a
warning; then soft-deletes the session and answers success. -/
def DELETE_session (db : Table) (log : List LogEntry) (sid : String)
    (userId : Option String) (now : Nat) (logFails : Bool) :
    SimpleResponse × Table × List LogEntry :=
  if sid == "" then (.badRequest, db, log)
  else
    let log2 :=
      match logSessionActivity log sid .deleted userId none logFails with
      | .ok l => l
      | .error _ => log
    (.ok, deleteSession db sid now, log2)

/-- Action selector of the PATCH handler. -/
inductive PatchAction
  | unlock
  | refresh
  | restore
  | invalid
deriving DecidableEq

/-- PATCH /api/sessions/[sessionId]: unlock and refresh require a user and
delegate to the lock helpers; restore clears deleted_at and then logs an
activity entry with no guard, so a logging failure becomes a 500 although
the restore has already been applied. -/
def PATCH_session (db : Table) (log : List LogEntry) (sid : String)
    (userId : Option String) (action : PatchAction) (now : Nat)
    (logFails : Bool) : SimpleResponse × Table × List LogEntry :=
  if sid == "" then (.badRequest, db, log)
  else
    match action with
    | .unlock =>
        (match userId with
         | none => (.badRequest, db, log)
         | some uid => (.ok, unlockSession db sid uid now, log))
    | .refresh =>
        (match userId with
         | none => (.badRequest, db, log)
         | some uid => (.ok, refreshSessionLock db sid uid now, log))
    | .restore =>
        let db2 := restoreSession db sid now
        (match logSessionActivity log sid .created userId none logFails with
         | .ok log2 => (.ok, db2, log2)
         | .error _ => (.serverError, db2, log))
    | .invalid => (.badRequest, db, log)

/-- The client-side session as far as the save protocol reads and writes
it: the device array, the locally known version, the progress cache and the
local timestamp. -/
structure ClientSession where
  session_id : String
  devices : List Device
  progress_percentage : Rat
  _version : Nat
  last_updated : Nat
deriving DecidableEq

/-- The slice of the zustand store state around saving: the active session,
the conflict state, the unsaved-changes flag, the last save time and the
error banner. -/
structure StoreState where
  session : Option ClientSession
  conflictError : Option (Nat × Nat)
  hasUnsavedChanges : Bool
  lastSavedAt : Option Nat
  error : Option String
deriving DecidableEq

/-- The server response as seen by saveProgressToCloud. -/
inductive SaveResponse
  | ok (version : Nat) (lastSaved : Nat)
  | conflict (currentVersion : Nat) (attemptedVersion : Nat)
  | otherError (status : Nat)
deriving DecidableEq

/-- The conflict banner text set by the client on a 409. -/
def conflictBanner : String :=
  "Your changes conflict with recent updates. Please refresh and try again."

/-- saveProgressToCloud (src/store/useAppStore.ts): with no session the call
is a warn-and-return.  On a 409 CONFLICT response it records both version
numbers in conflictError and sets the error banner, then rethrows: the
session object and the unsaved-changes flag are untouched.  On any other
failure it rethrows with no state change.  On success it writes the server
version and timestamp into the session, clears conflictError and
hasUnsavedChanges, and records the save time. -/
def saveProgressToCloud (st : StoreState) (resp : SaveResponse) (now : Nat) :
    StoreState :=
  match st.session with
  | none => st
  | some session =>
    match resp with
    | .conflict cv av =>
        { st with conflictError := some (cv, av), error := some conflictBanner }
    | .otherError _ => st
    | .ok v lastSaved =>
        { st with
          session := some { session with last_updated := lastSaved, _version := v }
          conflictError := none
          hasUnsavedChanges := false
          lastSavedAt := some now }

/-- The stored version of the session sid: the version column of its row. -/
def sessionVersion (db : Table) (sid : String) : Option Nat :=
  (db.find? (psid sid)).map fun r => r.version

/-- One updateSession request of the newest generation. -/
structure UpdateReq where
  s : CheckingSession
  blobUrl : String
  expectedVersion : Nat
  now : Nat

/-- A sequence of updateSession calls, all of which must succeed. -/
def runUpdates (db : Table) : List UpdateReq → Option Table
  | [] => some db
  | q :: qs =>
      match updateSession db q.s q.blobUrl q.expectedVersion q.now with
      | .ok out => runUpdates out.2 qs
      | .error _ => none

theorem psid_eq_true {sid : String} {x : SessionRow} :
    psid sid x = true ↔ x.session_id = sid := by
  simp [psid]

theorem find?_stricter {q : SessionRow → Bool} {sid : String} {db : Table}
    {r : SessionRow} (hq : ∀ x, q x = true → psid sid x = true)
    (hfind : db.find? (psid sid) = some r) (hr : q r = true) :
    db.find? q = some r := by
  induction db with
  | nil => simp at hfind
  | cons h t ih =>
    rw [List.find?_cons] at hfind ⊢
    cases hph : psid sid h with
    | true =>
      rw [hph] at hfind
      cases hfind
      rw [hr]
    | false =>
      rw [hph] at hfind
      have hqh : q h = false := by
        cases hqh : q h with
        | true => rw [hq h hqh] at hph; cases hph
        | false => rfl
      rw [hqh]
      exact ih hfind

theorem find?_none_of_stricter {q : SessionRow → Bool} {sid : String}
    {db : Table} (hq : ∀ x, q x = true → psid sid x = true)
    (hfind : db.find? (psid sid) = none) : db.find? q = none := by
  rw [List.find?_eq_none] at hfind ⊢
  intro x hx hqx
  exact hfind x hx (hq x hqx)

theorem eq_of_mem_psid_of_unique {sid : String} {db : Table} {r x : SessionRow}
    (hu : uniqueSessionIds db) (hfind : db.find? (psid sid) = some r)
    (hx : x ∈ db) (hpx : psid sid x = true) : x = r := by
  induction db with
  | nil => cases hx
  | cons h t ih =>
    have hu2 : uniqueSessionIds t := by
      unfold uniqueSessionIds at hu ⊢
      rw [List.map_cons] at hu
      exact (List.nodup_cons.mp hu).2
    have hnm : h.session_id ∉ t.map (fun y => y.session_id) := by
      unfold uniqueSessionIds at hu
      rw [List.map_cons] at hu
      exact (List.nodup_cons.mp hu).1
    rw [List.find?_cons] at hfind
    cases hph : psid sid h with
    | true =>
      rw [hph] at hfind
      cases hfind
      rcases List.mem_cons.mp hx with hx | hx
      · exact hx
      · exfalso
        apply hnm
        rw [psid_eq_true.mp hph]
        rw [← psid_eq_true.mp hpx]
        exact List.mem_map_of_mem (fun y => y.session_id) hx
    | false =>
      rw [hph] at hfind
      rcases List.mem_cons.mp hx with hx | hx
      · rw [hx] at hpx
        rw [hpx] at hph
        cases hph
      · exact ih hu2 hfind hx

theorem find?_stricter_none_of_unique {q : SessionRow → Bool} {sid : String}
    {db : Table} {r : SessionRow}
    (hq : ∀ x, q x = true → psid sid x = true) (hu : uniqueSessionIds db)
    (hfind : db.find? (psid sid) = some r) (hr : q r = false) :
    db.find? q = none := by
  rw [List.find?_eq_none]
  intro x hx hqx
  have hxr : x = r := eq_of_mem_psid_of_unique hu hfind hx (hq x hqx)
  rw [hxr, hr] at hqx
  cases hqx

theorem find?_map_condUpdate {sid : String} {q : SessionRow → Bool}
    {g : SessionRow → SessionRow} (hg : ∀ x, (g x).session_id = x.session_id)
    (db : Table) :
    (db.map fun x => if q x then g x else x).find? (psid sid)
      = (db.find? (psid sid)).map fun x => if q x then g x else x := by
  induction db with
  | nil => rfl
  | cons h t ih =>
    rw [List.map_cons, List.find?_cons, List.find?_cons]
    have hps : psid sid (if q h then g h else h) = psid sid h := by
      by_cases hqh : q h = true
      · simp [hqh, psid, hg]
      · simp [hqh]
    rw [hps]
    cases psid sid h with
    | true => rfl
    | false => exact ih

theorem unique_map_condUpdate {q : SessionRow → Bool}
    {g : SessionRow → SessionRow} (hg : ∀ x, (g x).session_id = x.session_id)
    {db : Table} (hu : uniqueSessionIds db) :
    uniqueSessionIds (db.map fun x => if q x then g x else x) := by
  unfold uniqueSessionIds at hu ⊢
  rw [List.map_map]
  have he : ((fun r : SessionRow => r.session_id) ∘ fun x => if q x then g x else x)
      = fun r : SessionRow => r.session_id := by
    funext x
    by_cases hqx : q x = true
    · simp [Function.comp, hqx, hg]
    · simp [Function.comp, hqx]
  rw [he]
  exact hu

theorem find?_append_fresh {sid : String} {db : Table} {row : SessionRow}
    (hany : db.any (psid sid) = false) (hrow : psid sid row = true) :
    (db ++ [row]).find? (psid sid) = some row := by
  rw [List.find?_append]
  have h1 : db.find? (psid sid) = none := by
    rw [List.find?_eq_none]
    intro x hx hpx
    have h2 : db.any (psid sid) = true := List.any_eq_true.mpr ⟨x, hx, hpx⟩
    rw [hany] at h2
    cases h2
  rw [h1, List.find?_cons, hrow]
  rfl

theorem unique_append_fresh {db : Table} {row : SessionRow}
    (hany : db.any (psid row.session_id) = false) (hu : uniqueSessionIds db) :
    uniqueSessionIds (db ++ [row]) := by
  unfold uniqueSessionIds at hu ⊢
  rw [List.map_append, List.map_singleton]
  rw [List.nodup_append]
  refine ⟨hu, List.nodup_singleton _, ?_⟩
  intro a ha hb
  rw [List.mem_singleton] at hb
  rcases List.mem_map.mp ha with ⟨x, hx, hxa⟩
  have h2 : db.any (psid row.session_id) = true := by
    refine List.any_eq_true.mpr ⟨x, hx, ?_⟩
    rw [psid_eq_true, hxa, hb]
  rw [hany] at h2
  cases h2

theorem pver_imp_psid {sid : String} {ev : Nat} :
    ∀ x, pver sid ev x = true → psid sid x = true := by
  intro x hx
  unfold pver at hx
  exact (Bool.and_eq_true _ _).mp hx |>.1

theorem condUpdate_ok_of_version {db : Table} {sid : String} {ev : Nat}
    {g : SessionRow → SessionRow} {r : SessionRow}
    (hfind : db.find? (psid sid) = some r) (hv : r.version = ev) :
    condUpdate db sid ev g
      = .ok (g r, db.map fun x => if pver sid ev x then g x else x) := by
  have hr : pver sid ev r = true := by
    unfold pver
    rw [List.find?_some hfind, hv]
    simp
  unfold condUpdate
  rw [find?_stricter pver_imp_psid hfind hr]

theorem condUpdate_conflict {db : Table} {sid : String} {ev : Nat}
    {g : SessionRow → SessionRow} {r : SessionRow} (hu : uniqueSessionIds db)
    (hfind : db.find? (psid sid) = some r) (hv : r.version ≠ ev) :
    condUpdate db sid ev g = .error (.optimisticLock r.version ev) := by
  have hr : pver sid ev r = false := by
    unfold pver
    rw [List.find?_some hfind]
    simp [hv]
  unfold condUpdate
  rw [find?_stricter_none_of_unique pver_imp_psid hu hfind hr, hfind]

theorem condUpdate_notFound {db : Table} {sid : String} {ev : Nat}
    {g : SessionRow → SessionRow} (hfind : db.find? (psid sid) = none) :
    condUpdate db sid ev g = .error .notFound := by
  unfold condUpdate
  rw [find?_none_of_stricter pver_imp_psid hfind, hfind]

theorem condUpdate_ok_inversion {db : Table} {sid : String} {ev : Nat}
    {g : SessionRow → SessionRow} {r : SessionRow}
    {out : SessionRow × Table} (hu : uniqueSessionIds db)
    (hfind : db.find? (psid sid) = some r)
    (hok : condUpdate db sid ev g = .ok out) :
    ev = r.version
      ∧ out = (g r, db.map fun x => if pver sid ev x then g x else x) := by
  by_cases hv : r.version = ev
  · rw [condUpdate_ok_of_version hfind hv] at hok
    cases hok
    exact ⟨hv.symm, rfl⟩
  · rw [condUpdate_conflict hu hfind hv] at hok
    cases hok

theorem condUpdate_find_after {db : Table} {sid : String} {ev : Nat}
    {g : SessionRow → SessionRow} {r : SessionRow}
    (hg : ∀ x, (g x).session_id = x.session_id)
    (hfind : db.find? (psid sid) = some r) (hr : pver sid ev r = true) :
    (db.map fun x => if pver sid ev x then g x else x).find? (psid sid)
      = some (g r) := by
  rw [find?_map_condUpdate hg, hfind]
  simp [hr]

theorem updateSession_ok_step {db : Table} {s : CheckingSession} {b : String}
    {ev now : Nat} {out : SessionRow × Table} {r : SessionRow}
    (hu : uniqueSessionIds db)
    (hfind : db.find? (psid s.session_id) = some r)
    (hok : updateSession db s b ev now = .ok out) :
    out.2.find? (psid s.session_id) = some (updateRow s b now r)
      ∧ (updateRow s b now r).version = r.version + 1
      ∧ uniqueSessionIds out.2 := by
  unfold updateSession at hok
  obtain ⟨hev, hout⟩ := condUpdate_ok_inversion hu hfind hok
  have hg : ∀ x, (updateRow s b now x).session_id = x.session_id := fun _ => rfl
  have hr : pver s.session_id ev r = true := by
    unfold pver
    rw [List.find?_some hfind]
    simp [hev]
  subst hout
  exact ⟨condUpdate_find_after hg hfind hr, rfl, unique_map_condUpdate hg hu⟩

theorem runUpdates_version {sid : String} :
    ∀ (reqs : List UpdateReq) (db : Table) (r : SessionRow),
      uniqueSessionIds db →
      (∀ q ∈ reqs, q.s.session_id = sid) →
      db.find? (psid sid) = some r →
      ∀ db2, runUpdates db reqs = some db2 →
      sessionVersion db2 sid = some (r.version + reqs.length) := by
  intro reqs
  induction reqs with
  | nil =>
    intro db r _ _ hfind db2 hrun
    unfold runUpdates at hrun
    cases hrun
    unfold sessionVersion
    rw [hfind]
    rfl
  | cons q qs ih =>
    intro db r hu hq hfind db2 hrun
    unfold runUpdates at hrun
    cases hup : updateSession db q.s q.blobUrl q.expectedVersion q.now with
    | error e =>
      rw [hup] at hrun
      cases hrun
    | ok out =>
      rw [hup] at hrun
      have hsid : q.s.session_id = sid := hq q (List.mem_cons_self _ _)
      have hfind2 : db.find? (psid q.s.session_id) = some r := by
        rw [hsid]
        exact hfind
      obtain ⟨hf2, hv2, hu2⟩ := updateSession_ok_step hu hfind2 hup
      have hrec := ih out.2 (updateRow q.s q.blobUrl q.now r) hu2
        (fun p hp => hq p (List.mem_cons_of_mem _ hp)) (hsid ▸ hf2) db2 hrun
      rw [hrec, hv2, List.length_cons]
      congr 1
      omega

/-!
Concrete values used by the witness theorems.
-/

def exSid : String := "session-1"
def exUrl : String := "https://blob.example/sessions/session-1.json"
def exUrl2 : String := "https://blob.example/sessions/session-1-v2.json"
def exRowId : String := "row-1"
def exAlice : String := "alice@example.com"
def exBob : String := "bob@example.com"

def exS : CheckingSession :=
  { session_id := exSid
    session_name := "batch one"
    filename := "devices.csv"
    total_rows := 2
    progress_percentage := 0
    current_batch := some 1
    total_batches := 1
    completed_batches := some []
    devices := [{ status := .pending }, { status := .pending }] }

def exS2 : CheckingSession :=
  { exS with
    progress_percentage := 50
    devices := [{ status := .approved }, { status := .pending }] }

def exReqs : List UpdateReq :=
  [{ s := exS2, blobUrl := exUrl2, expectedVersion := 1, now := 5 },
   { s := exS2, blobUrl := exUrl2, expectedVersion := 2, now := 6 }]

def exRow : SessionRow := newRow exS exUrl none exRowId 0
def exDb1 : Table := [exRow]
def exDb2 : Table := (runUpdates exDb1 exReqs).getD []

/-- C1: createSession stores the metadata row with version 1, and every run
of N successful updateSession calls against that session (each one a single
conditional update guarded by session_id and the expected version, adding
exactly 1 to the stored version) leaves the stored version at 1 + N. -/
theorem c1_create_then_updates_version (db : Table) (s : CheckingSession)
    (blobUrl : String) (userId : Option String) (freshId : String) (now : Nat)
    (row : SessionRow) (db1 db2 : Table) (reqs : List UpdateReq)
    (hu : uniqueSessionIds db)
    (hc : createSession db s blobUrl userId freshId now = .ok (row, db1))
    (hreqs : ∀ q ∈ reqs, q.s.session_id = s.session_id)
    (hrun : runUpdates db1 reqs = some db2) :
    row.version = 1
      ∧ sessionVersion db2 s.session_id = some (1 + reqs.length) := by
  unfold createSession at hc
  cases hany : db.any (psid s.session_id) with
  | true =>
    rw [hany] at hc
    simp at hc
  | false =>
    rw [hany] at hc
    simp only [Bool.false_eq_true, if_false, Except.ok.injEq, Prod.mk.injEq] at hc
    obtain ⟨hrow, hdb1⟩ := hc
    subst hrow
    subst hdb1
    have hpr : psid s.session_id (newRow s blobUrl userId freshId now) = true := by
      simp [psid, newRow]
    have hfind1 : (db ++ [newRow s blobUrl userId freshId now]).find? (psid s.session_id)
        = some (newRow s blobUrl userId freshId now) :=
      find?_append_fresh hany hpr
    have hu1 : uniqueSessionIds (db ++ [newRow s blobUrl userId freshId now]) :=
      unique_append_fresh hany hu
    refine ⟨rfl, ?_⟩
    have h := runUpdates_version reqs _ _ hu1 hreqs hfind1 db2 hrun
    rw [h]
    rfl

/-- Witness for C1: a fresh session followed by two successful updates ends
at stored version 3. -/
theorem c1_witness :
    exRow.version = 1 ∧ sessionVersion exDb2 exSid = some (1 + exReqs.length) :=
  c1_create_then_updates_version [] exS exUrl none exRowId 0 exRow exDb1 exDb2
    exReqs (by decide) rfl (by decide) (by decide)

/-- C2: when the conditional update affects zero rows, updateSession fails
with the not-found error if no row with that session_id exists, and
otherwise with an OptimisticLockError carrying the attempted version and
the actual current version of the row. -/
theorem c2_zero_rows_failures (db : Table) (s : CheckingSession) (b : String)
    (ev now : Nat) (hu : uniqueSessionIds db) :
    (db.find? (psid s.session_id) = none →
      updateSession db s b ev now = .error .notFound) ∧
    (∀ r, db.find? (psid s.session_id) = some r → r.version ≠ ev →
      updateSession db s b ev now = .error (.optimisticLock r.version ev)) := by
  constructor
  · intro h
    unfold updateSession
    exact condUpdate_notFound h
  · intro r h hv
    unfold updateSession
    exact condUpdate_conflict hu h hv

/-- Witness for C2: the update on an empty table is a not-found failure;
the update with a wrong expected version (7, against a row at version 1)
fails with OptimisticLockError carrying 1 and 7. -/
theorem c2_witness :
    updateSession [] exS exUrl 1 0 = .error .notFound
      ∧ updateSession exDb1 exS2 exUrl2 7 9
          = .error (.optimisticLock 1 7) :=
  ⟨(c2_zero_rows_failures [] exS exUrl 1 0 (by decide)).1 rfl,
   (c2_zero_rows_failures exDb1 exS2 exUrl2 7 9 (by decide)).2 exRow
     (by decide) (by decide)⟩

/-- C10: a successful updateSession (session exists at the expected
version) rewrites only the SET list of its single UPDATE statement: the
lock fields, the soft-delete field and the identity and descriptive columns
are untouched, and nothing about the lock or deleted_at is consulted by the
WHERE clause, so the update succeeds whatever their values are (the schema
trigger additionally refreshes updated_at). -/
theorem c10_update_frame (db : Table) (s : CheckingSession) (b : String)
    (now : Nat) (r : SessionRow)
    (hfind : db.find? (psid s.session_id) = some r) :
    ∃ db2,
      updateSession db s b r.version now = .ok (updateRow s b now r, db2)
      ∧ db2.find? (psid s.session_id) = some (updateRow s b now r)
      ∧ (updateRow s b now r).locked_by = r.locked_by
      ∧ (updateRow s b now r).locked_at = r.locked_at
      ∧ (updateRow s b now r).deleted_at = r.deleted_at
      ∧ (updateRow s b now r).id = r.id
      ∧ (updateRow s b now r).session_id = r.session_id
      ∧ (updateRow s b now r).filename = r.filename
      ∧ (updateRow s b now r).user_id = r.user_id
      ∧ (updateRow s b now r).total_rows = r.total_rows
      ∧ (updateRow s b now r).total_batches = r.total_batches
      ∧ (updateRow s b now r).created_at = r.created_at
      ∧ (updateRow s b now r).devices = r.devices
      ∧ (updateRow s b now r).version = r.version + 1 := by
  have hr : pver s.session_id r.version r = true := by
    unfold pver
    rw [List.find?_some hfind]
    simp
  refine ⟨db.map fun x => if pver s.session_id r.version x then updateRow s b now x else x,
    ?_, ?_, rfl, rfl, rfl, rfl, rfl, rfl, rfl, rfl, rfl, rfl, rfl, rfl⟩
  · unfold updateSession
    exact condUpdate_ok_of_version hfind rfl
  · exact condUpdate_find_after (fun _ => rfl) hfind hr

theorem lockCheckPred_imp_psid {sid uid : String} {now : Nat} :
    ∀ x, lockCheckPred sid uid now x = true → psid sid x = true := by
  intro x hx
  unfold lockCheckPred at hx
  simp only [Bool.and_eq_true] at hx
  exact hx.1.1.1

/-- The row transformer of the lock UPDATE. -/
def stampLock (uid : String) (now : Nat) (r : SessionRow) : SessionRow :=
  { r with locked_by := some uid, locked_at := some now, updated_at := now }

theorem lockSession_eq_stamped (db : Table) (sid uid : String) (now : Nat) :
    (db.map fun r => if psid sid r then stampLock uid now r else r)
      = db.map fun r =>
          if psid sid r then
            { r with locked_by := some uid, locked_at := some now, updated_at := now }
          else r := rfl

/-- C3: with the row for the session present and its two lock columns
coherent (a holder implies a timestamp, as every write path maintains),
lockSession succeeds exactly when the lock is free, already held by the
requesting editor, or stale by the 5-minute TTL; every success stamps
locked_by and locked_at on the row, and every failure is a
SessionLockedError carrying the current holder and the lock timestamp. -/
theorem c3_lock_rule (db : Table) (r : SessionRow) (sid uid : String)
    (now : Nat) (hu : uniqueSessionIds db)
    (hfind : db.find? (psid sid) = some r)
    (hcoh : r.locked_by.isSome = true → r.locked_at.isSome = true) :
    ((∃ db2, lockSession db sid uid now = .ok (true, db2)) ↔
      (r.locked_by = none ∨ r.locked_by = some uid ∨
        ∃ t, r.locked_at = some t ∧ t + lockTTL ≤ now)) ∧
    (∀ db2, lockSession db sid uid now = .ok (true, db2) →
      db2.find? (psid sid)
        = some { r with locked_by := some uid, locked_at := some now,
                        updated_at := now }) ∧
    (∀ e, lockSession db sid uid now = .error e →
      ∃ b t, r.locked_by = some b ∧ r.locked_at = some t
        ∧ e = .sessionLocked b t) := by
  cases hchk : lockCheckPred sid uid now r with
  | true =>
    have hfl : db.find? (lockCheckPred sid uid now) = some r :=
      find?_stricter lockCheckPred_imp_psid hfind hchk
    have hlock : lockSession db sid uid now
        = .error (.sessionLocked (r.locked_by.getD "") (r.locked_at.getD 0)) := by
      unfold lockSession
      rw [hfl]
    unfold lockCheckPred at hchk
    simp only [Bool.and_eq_true] at hchk
    obtain ⟨⟨⟨_, hsome⟩, hne⟩, hfresh⟩ := hchk
    obtain ⟨b, hb⟩ := Option.isSome_iff_exists.mp hsome
    obtain ⟨t, hla⟩ : ∃ t, r.locked_at = some t := by
      cases h2 : r.locked_at with
      | none =>
        rw [h2] at hfresh
        simp at hfresh
      | some t => exact ⟨t, rfl⟩
    have hfresh2 : now < t + lockTTL := by
      rw [hla] at hfresh
      exact of_decide_eq_true hfresh
    have hbu : r.locked_by ≠ some uid := by
      intro hcontra
      rw [hcontra] at hne
      simp at hne
    refine ⟨?_, ?_, ?_⟩
    · constructor
      · intro hok
        obtain ⟨db2, hok⟩ := hok
        rw [hlock] at hok
        cases hok
      · intro hav
        exfalso
        rcases hav with hav | hav | hav
        · rw [hav] at hb
          cases hb
        · exact hbu hav
        · obtain ⟨t2, ht2, hle⟩ := hav
          rw [hla] at ht2
          injection ht2 with h2
          omega
    · intro db2 hok
      rw [hlock] at hok
      cases hok
    · intro e he
      rw [hlock] at he
      cases he
      refine ⟨b, t, hb, hla, ?_⟩
      rw [hb, hla]
      rfl
  | false =>
    have hfl : db.find? (lockCheckPred sid uid now) = none :=
      find?_stricter_none_of_unique lockCheckPred_imp_psid hu hfind hchk
    have hlock : lockSession db sid uid now
        = .ok (true, db.map fun x => if psid sid x then stampLock uid now x else x) := by
      unfold lockSession
      rw [hfl]
      rfl
    refine ⟨?_, ?_, ?_⟩
    · constructor
      · intro _
        have hpr : psid sid r = true := List.find?_some hfind
        cases hlb : r.locked_by with
        | none => exact .inl rfl
        | some b =>
          have hsome : r.locked_by.isSome = true := by
            rw [hlb]
            rfl
          obtain ⟨t, ht⟩ := Option.isSome_iff_exists.mp (hcoh hsome)
          by_cases hbu : b = uid
          · subst hbu
            exact .inr (.inl rfl)
          · refine .inr (.inr ⟨t, ht, ?_⟩)
            by_contra hnl
            have hlt : now < t + lockTTL := by omega
            have htrue : lockCheckPred sid uid now r = true := by
              unfold lockCheckPred
              rw [hpr, hlb, ht]
              simp [hbu, hlt]
            rw [htrue] at hchk
            cases hchk
      · intro _
        exact ⟨_, hlock⟩
    · intro db2 hok
      rw [hlock] at hok
      cases hok
      have h := @find?_map_condUpdate sid (psid sid) (stampLock uid now)
        (fun _ => rfl) db
      rw [hfind] at h
      rw [h]
      have hpr : psid sid r = true := List.find?_some hfind
      simp [hpr, stampLock]
    · intro e he
      rw [hlock] at he
      cases he

def exRowLockedFresh : SessionRow :=
  { exRow with locked_by := some exAlice, locked_at := some 100 }

def exRowLockedStale : SessionRow :=
  { exRow with locked_by := some exAlice, locked_at := some 0 }

/-- Witness for C3: a lock held by alice since time 0 is stale at time 400
(TTL 300), so bob can acquire it; the same lock stamped at time 100 is
fresh at time 200, so the attempt by bob fails with the holder and the
timestamp. -/
theorem c3_witness :
    (∃ db2, lockSession [exRowLockedStale] exSid exBob 400 = .ok (true, db2))
      ∧ (∀ e, lockSession [exRowLockedFresh] exSid exBob 200 = .error e →
          ∃ b t, exRowLockedFresh.locked_by = some b
            ∧ exRowLockedFresh.locked_at = some t ∧ e = .sessionLocked b t) :=
  ⟨(c3_lock_rule [exRowLockedStale] exRowLockedStale exSid exBob 400
      (by decide) (by decide) (by decide)).1.mpr
      (.inr (.inr ⟨0, rfl, by decide⟩)),
   (c3_lock_rule [exRowLockedFresh] exRowLockedFresh exSid exBob 200
      (by decide) (by decide) (by decide)).2.2⟩

/-- C4: on a GET of an existing session with an authenticated identity, the
handler runs lockSession for that identity; when the acquisition fails with
SessionLockedError the response is the 423 body carrying lockedBy and
lockedAt with the table unchanged (no session data is returned), and when
it succeeds the handler keeps the lock-stamped table. -/
theorem c4_get_locks_or_423 (db : Table) (sid uid : String)
    (sd : LoadedSession) (bf : String → Option (List Device)) (now : Nat)
    (hsid : sid ≠ "") (hget : getSession db sid = some sd) :
    (∀ b t, lockSession db sid uid now = .error (.sessionLocked b t) →
      GET_session db sid (some uid) bf now = (.locked b t, db)) ∧
    (∀ db2, lockSession db sid uid now = .ok (true, db2) →
      (GET_session db sid (some uid) bf now).2 = db2) := by
  have hbe : (sid == "") = false := by
    simp [hsid]
  constructor
  · intro b t hl
    unfold GET_session getLockStep
    rw [hbe]
    simp [hget, hl, Except.map]
  · intro db2 hl
    unfold GET_session getLockStep
    rw [hbe]
    simp [hget, hl, Except.map]

/-- Witness for C4: with alice holding a fresh lock, a GET by bob returns
the 423 payload with the holder and the lock timestamp. -/
theorem c4_witness :
    GET_session [exRowLockedFresh] exSid (some exBob) (fun _ => none) 200
      = (.locked exAlice 100, [exRowLockedFresh]) :=
  (c4_get_locks_or_423 [exRowLockedFresh] exSid exBob
      (rowToSession exRowLockedFresh) (fun _ => none) 200
      (by decide) rfl).1 exAlice 100 rfl

def exRowDeleted : SessionRow := { exRow with deleted_at := some 50 }

/-- Counterexample for C5: a soft-deleted session is still returned by
getSession, and the GET handler answers 200 with the session body rather
than the claimed 404. -/
theorem c5_counterexample :
    exRowDeleted.deleted_at = some 50
      ∧ getSession [exRowDeleted] exSid = some (rowToSession exRowDeleted)
      ∧ (GET_session [exRowDeleted] exSid none (fun _ => none) 60).1
          = .ok { rowToSession exRowDeleted with devices := [], blob_url := none }
      ∧ (GET_session [exRowDeleted] exSid none (fun _ => none) 60).1
          ≠ .notFound := by
  decide

theorem mem_insertByUpdatedDesc {r x : SessionRow} :
    ∀ {l : List SessionRow}, x ∈ insertByUpdatedDesc r l → x = r ∨ x ∈ l := by
  intro l
  induction l with
  | nil =>
    intro h
    unfold insertByUpdatedDesc at h
    rcases List.mem_singleton.mp h with h
    exact .inl h
  | cons a t ih =>
    intro h
    unfold insertByUpdatedDesc at h
    by_cases hc : a.updated_at ≤ r.updated_at
    · rw [if_pos hc] at h
      rcases List.mem_cons.mp h with h | h
      · exact .inl h
      · exact .inr h
    · rw [if_neg hc] at h
      rcases List.mem_cons.mp h with h | h
      · exact .inr (by rw [h]; exact List.mem_cons_self _ _)
      · rcases ih h with h | h
        · exact .inl h
        · exact .inr (List.mem_cons_of_mem _ h)

theorem mem_orderByUpdatedDesc {x : SessionRow} :
    ∀ {l : List SessionRow}, x ∈ orderByUpdatedDesc l → x ∈ l := by
  intro l
  induction l with
  | nil =>
    intro h
    exact h
  | cons a t ih =>
    intro h
    unfold orderByUpdatedDesc at h
    rw [List.foldr_cons] at h
    rcases mem_insertByUpdatedDesc h with h | h
    · rw [h]
      exact List.mem_cons_self _ _
    · exact List.mem_cons_of_mem _ (ih h)

/-- C5 amended: a session with deleted_at set is excluded from the active
listing (every row returned by listSessions has NULL deleted_at), but the
direct load path does not filter on deleted_at: getSession still returns
the soft-deleted row. -/
theorem c5_soft_delete_visibility (db : Table) (uid : Option String)
    (lim off : Nat) (sid : String) (r : SessionRow) :
    (∀ x ∈ listSessions db uid lim off, x.deleted_at = none)
      ∧ (db.find? (psid sid) = some r → r.deleted_at ≠ none →
          getSession db sid = some (rowToSession r)) := by
  constructor
  · intro x hx
    simp only [listSessions] at hx
    have h1 := List.take_subset _ _ hx
    have h2 := List.drop_subset _ _ h1
    have h3 := mem_orderByUpdatedDesc h2
    have h4 : x ∈ session_summaries db := by
      cases uid with
      | none => exact h3
      | some u => exact (List.mem_filter.mp h3).1
    unfold session_summaries at h4
    have h5 := (List.mem_filter.mp h4).2
    simpa using h5
  · intro h _
    unfold getSession
    rw [h]
    rfl

/-- Witness for C5: on a table holding only a soft-deleted session the
active listing is empty while getSession still returns the row. -/
theorem c5_witness :
    (∀ x ∈ listSessions [exRowDeleted] none 100 0, x.deleted_at = none)
      ∧ getSession [exRowDeleted] exSid = some (rowToSession exRowDeleted)
      ∧ listSessions [exRowDeleted] none 100 0 = [] :=
  ⟨(c5_soft_delete_visibility [exRowDeleted] none 100 0 exSid exRowDeleted).1,
   (c5_soft_delete_visibility [exRowDeleted] none 100 0 exSid exRowDeleted).2
     (by decide) (by decide),
   by decide⟩

theorem length_filter_add_length_filter_not (p : SessionRow → Bool) :
    ∀ l : List SessionRow,
      (l.filter p).length + (l.filter fun r => !(p r)).length = l.length := by
  intro l
  induction l with
  | nil => rfl
  | cons a t ih =>
    cases h : p a with
    | true =>
      simp [List.filter_cons, h]
      omega
    | false =>
      simp [List.filter_cons, h]
      omega

/-- C6: the cleanup keeps exactly the rows not past the 14-day retention
cutoff (a row survives iff its deleted_at, when set, is not older than
retention), returns the number of rows removed, and an immediate re-run
removes nothing and returns 0. -/
theorem c6_cleanup_retention (db : Table) (now : Nat) :
    (∀ r ∈ db,
      (r ∈ (cleanupOldDeletedSessions db now).2
        ↔ ∀ t, r.deleted_at = some t → ¬ t + retentionSeconds < now))
      ∧ (cleanupOldDeletedSessions db now).1
          + (cleanupOldDeletedSessions db now).2.length = db.length
      ∧ cleanupOldDeletedSessions (cleanupOldDeletedSessions db now).2 now
          = (0, (cleanupOldDeletedSessions db now).2) := by
  refine ⟨?_, ?_, ?_⟩
  · intro r hr
    unfold cleanupOldDeletedSessions cleanup_old_deleted_sessions
    constructor
    · intro hmem t ht hlt
      have hkeep := (List.mem_filter.mp hmem).2
      rw [Bool.not_eq_true'] at hkeep
      unfold expiredPred at hkeep
      rw [ht] at hkeep
      simp [hlt] at hkeep
    · intro hall
      refine List.mem_filter.mpr ⟨hr, ?_⟩
      rw [Bool.not_eq_true']
      unfold expiredPred
      cases hd : r.deleted_at with
      | none => rfl
      | some t =>
        have hnot := hall t hd
        simp [hnot]
  · unfold cleanupOldDeletedSessions cleanup_old_deleted_sessions
    exact length_filter_add_length_filter_not (expiredPred now) db
  · unfold cleanupOldDeletedSessions cleanup_old_deleted_sessions
    have h1 : (db.filter fun r => !(expiredPred now r)).filter (expiredPred now)
        = [] := by
      rw [List.filter_eq_nil_iff]
      intro a ha hcontra
      have := (List.mem_filter.mp ha).2
      rw [hcontra] at this
      cases this
    have h2 : (db.filter fun r => !(expiredPred now r)).filter
        (fun r => !(expiredPred now r)) = db.filter fun r => !(expiredPred now r) := by
      rw [List.filter_eq_self]
      intro a ha
      exact (List.mem_filter.mp ha).2
    rw [h1, h2]
    rfl

def exSidB : String := "session-2"
def exRow15 : SessionRow := { exRow with deleted_at := some (5 * 86400) }
def exRow13 : SessionRow :=
  { exRow with session_id := exSidB, deleted_at := some (7 * 86400) }
def exDbRet : Table := [exRow15, exRow13]
def exNow : Nat := 20 * 86400

/-- Witness for C6: at day 20, a session deleted on day 5 (15 days ago) is
purged and one deleted on day 7 (13 days ago) survives; the count is 1, and
the immediate re-run returns 0 and changes nothing. -/
theorem c6_witness :
    cleanupOldDeletedSessions exDbRet exNow = (1, [exRow13])
      ∧ (exRow13 ∈ (cleanupOldDeletedSessions exDbRet exNow).2
          ↔ ∀ t, exRow13.deleted_at = some t → ¬ t + retentionSeconds < exNow)
      ∧ cleanupOldDeletedSessions (cleanupOldDeletedSessions exDbRet exNow).2 exNow
          = (0, (cleanupOldDeletedSessions exDbRet exNow).2) :=
  ⟨by decide,
   (c6_cleanup_retention exDbRet exNow).1 exRow13 (by decide),
   (c6_cleanup_retention exDbRet exNow).2.2⟩

/-- C7: when the save hits a 409 CONFLICT response, the client records both
the server current version and the attempted version in conflictError and
leaves the local session (its devices and version) and the unsaved-changes
flag untouched; on a success response it replaces the local version with
the server one, stamps the server timestamp, clears conflictError and
clears hasUnsavedChanges. -/
theorem c7_save_conflict_preserves_edits (st : StoreState)
    (sess : ClientSession) (now : Nat) (hs : st.session = some sess) :
    (∀ cv av, saveProgressToCloud st (.conflict cv av) now
        = { st with conflictError := some (cv, av),
                    error := some conflictBanner }) ∧
    (∀ cv av,
      (saveProgressToCloud st (.conflict cv av) now).session = st.session
        ∧ (saveProgressToCloud st (.conflict cv av) now).hasUnsavedChanges
            = st.hasUnsavedChanges) ∧
    (∀ v ls,
      (saveProgressToCloud st (.ok v ls) now).session
          = some { sess with last_updated := ls, _version := v }
        ∧ (saveProgressToCloud st (.ok v ls) now).hasUnsavedChanges = false
        ∧ (saveProgressToCloud st (.ok v ls) now).conflictError = none) := by
  unfold saveProgressToCloud
  rw [hs]
  exact ⟨fun cv av => rfl, fun cv av => ⟨rfl, rfl⟩, fun v ls => ⟨rfl, rfl, rfl⟩⟩

def exClientSession : ClientSession :=
  { session_id := exSid
    devices := [{ status := .approved }]
    progress_percentage := 50
    _version := 3
    last_updated := 10 }

def exStore : StoreState :=
  { session := some exClientSession
    conflictError := none
    hasUnsavedChanges := true
    lastSavedAt := none
    error := none }

/-- Witness for C7: a 409 with current version 5 against attempted version
3 populates conflictError with (5, 3) and leaves the session and the
unsaved-changes flag alone; a success with version 4 installs it and clears
the flag. -/
theorem c7_witness :
    (saveProgressToCloud exStore (.conflict 5 3) 11).conflictError = some (5, 3)
      ∧ (saveProgressToCloud exStore (.conflict 5 3) 11).session = exStore.session
      ∧ (saveProgressToCloud exStore (.conflict 5 3) 11).hasUnsavedChanges = true
      ∧ (saveProgressToCloud exStore (.ok 4 12) 11).session
          = some { exClientSession with last_updated := 12, _version := 4 }
      ∧ (saveProgressToCloud exStore (.ok 4 12) 11).hasUnsavedChanges = false := by
  have h := c7_save_conflict_preserves_edits exStore exClientSession 11 rfl
  exact ⟨by rw [h.1 5 3], (h.2.1 5 3).1, (h.2.1 5 3).2.trans rfl,
    (h.2.2 4 12).1, (h.2.2 4 12).2.1⟩

/-- Counterexample for C8: a GET whose blob fetch fails does not surface a
500; it answers 200 with the device array silently replaced by the empty
array. -/
theorem c8_counterexample :
    exRow.blob_url = some exUrl
      ∧ (GET_session [exRow] exSid none (fun _ => none) 99).1
          = .ok { rowToSession exRow with devices := [], blob_url := none }
      ∧ (GET_session [exRow] exSid none (fun _ => none) 99).1
          ≠ .serverError := by
  decide

/-- C8 amended: a blob fetch failure during GET is not fatal: whenever the
session exists, carries a blob url and the lock step passes, a failing
fetch yields a success response whose devices are the empty array (partial
session data), never a 500. -/
theorem c8_blob_failure_fallback (db : Table) (sid url : String)
    (userId : Option String) (sd : LoadedSession)
    (bf : String → Option (List Device)) (now : Nat) (db2 : Table)
    (hsid : sid ≠ "") (hget : getSession db sid = some sd)
    (hurl : sd.blob_url = some url) (hbf : bf url = none)
    (hlock : getLockStep db sid userId now = .ok db2) :
    GET_session db sid userId bf now
      = (.ok { sd with devices := [], blob_url := none }, db2) := by
  have hbe : (sid == "") = false := by
    simp [hsid]
  unfold GET_session
  rw [hbe]
  simp [hget, hlock, hurl, hbf]

/-- Witness for C8 amended: the blob-backed example row with a failing
fetch function produces the 200 response with an empty device array. -/
theorem c8_witness :
    GET_session [exRow] exSid none (fun _ => none) 99
      = (.ok { rowToSession exRow with devices := [], blob_url := none },
         [exRow]) :=
  c8_blob_failure_fallback [exRow] exSid exUrl none (rowToSession exRow)
    (fun _ => none) 99 [exRow] (by decide) rfl rfl rfl rfl

/-- Counterexample for C9: in the POST handler the activity-log call is not
guarded, so with the repository update already committed (the stored
version moves from 1 to 2) a logging failure still turns the response into
a 500 instead of the claimed success. -/
theorem c9_counterexample :
    (POST_sessions exDb1 [] exS2 none exRowId 7 true).1 = .serverError
      ∧ sessionVersion (POST_sessions exDb1 [] exS2 none exRowId 7 true).2.1
          exSid = some 2 := by
  decide

theorem jsOrOne_of_ne_zero {n : Nat} (h : n ≠ 0) : jsOrOne (some n) = n := by
  cases n with
  | zero => exact absurd rfl h
  | succ k => rfl

/-- C9 amended: only the DELETE handler guards its activity-log insert, so
a logging failure there is swallowed and the soft delete still answers
success; in the PATCH restore branch and in the POST save handler the log
call is unguarded, so a logging failure yields a 500 response even though
the restore, or the version-bumping update, has already been applied. -/
theorem c9_log_failure_behaviour (db : Table) (log : List LogEntry)
    (sid : String) (uid : Option String) (now : Nat) (s : CheckingSession)
    (freshId : String) (r : SessionRow)
    (hsid : sid ≠ "")
    (hfind : db.find? (psid s.session_id) = some r)
    (hv : r.version ≠ 0) :
    DELETE_session db log sid uid now true
        = (.ok, deleteSession db sid now, log)
      ∧ PATCH_session db log sid uid .restore now true
          = (.serverError, restoreSession db sid now, log)
      ∧ (POST_sessions db log s uid freshId now true).1 = .serverError
      ∧ sessionVersion (POST_sessions db log s uid freshId now true).2.1
          s.session_id = some (r.version + 1) := by
  have hbe : (sid == "") = false := by
    simp [hsid]
  have hget : getSession db s.session_id = some (rowToSession r) := by
    unfold getSession
    rw [hfind]
    rfl
  have hjs : jsOrOne (some (rowToSession r)._version) = r.version :=
    jsOrOne_of_ne_zero hv
  have hup : Legacy.updateSession db s r.version now
      = .ok (Legacy.updateRow s now r,
          db.map fun x =>
            if pver s.session_id r.version x then Legacy.updateRow s now x
            else x) := by
    unfold Legacy.updateSession
    exact condUpdate_ok_of_version hfind rfl
  have hpv : pver s.session_id r.version r = true := by
    unfold pver
    rw [List.find?_some hfind]
    simp
  have hfa := @condUpdate_find_after db s.session_id r.version
    (Legacy.updateRow s now) r (fun _ => rfl) hfind hpv
  refine ⟨?_, ?_, ?_, ?_⟩
  · unfold DELETE_session
    rw [hbe]
    simp [logSessionActivity]
  · unfold PATCH_session
    rw [hbe]
    simp [logSessionActivity]
  · unfold POST_sessions
    rw [hget]
    simp only [hjs, hup, logSessionActivity, if_true]
  · unfold POST_sessions
    rw [hget]
    simp only [hjs, hup, logSessionActivity, if_true]
    unfold sessionVersion
    rw [hfa]
    rfl

/-- Witness for C9 amended: on the example table, DELETE with a failing log
still soft-deletes and answers success, while POST with a failing log
answers 500 although the row moved to version 2. -/
theorem c9_witness :
    DELETE_session exDb1 [] exSid none 7 true
        = (.ok, deleteSession exDb1 exSid 7, [])
      ∧ (POST_sessions exDb1 [] exS2 none exRowId 7 true).1 = .serverError
      ∧ sessionVersion (POST_sessions exDb1 [] exS2 none exRowId 7 true).2.1
          exSid = some 2 := by
  have h := c9_log_failure_behaviour exDb1 [] exSid none 7 exS2 exRowId exRow
    (by decide) (by decide) (by decide)
  exact ⟨h.1, h.2.2.1, h.2.2.2⟩

def exRowLockedDeleted : SessionRow :=
  { exRow with
    locked_by := some exAlice
    locked_at := some 10
    deleted_at := some 20
    version := 3 }

/-- Witness for C10: the update succeeds on a row that is locked by another
editor and soft-deleted, leaving both untouched and bumping the version. -/
theorem c10_witness :
    ∃ out, updateSession [exRowLockedDeleted] exS2 exUrl2 3 30 = .ok out
      ∧ out.1.locked_by = some exAlice
      ∧ out.1.locked_at = some 10
      ∧ out.1.deleted_at = some 20
      ∧ out.1.version = 4 := by
  obtain ⟨db2, h1, _, hlb, hla, hda, _⟩ :=
    c10_update_frame [exRowLockedDeleted] exS2 exUrl2 30 exRowLockedDeleted
      (by decide)
  exact ⟨_, h1, hlb.trans rfl, hla.trans rfl, hda.trans rfl, rfl⟩

end ScrapeChecker
